import Mathlib

/-!
Verification development for the `pytest-skip-markers` decision engine.

The Python sources under `src/pytestskipmarkers/` are shallowly embedded:
ambient host state (`sys.platform`, `platform.machine()`, the environ, the
search path, socket bind/connect results, the FIPS signals, the CLI toggles)
becomes an explicit `Env` record, pytest markers become `Marker` values and a
test item becomes an `Item` record of optional markers, and the helpers and
the `evaluate_markers` dispatcher become pure functions over those records.
Mutation of a marker's `kwargs` dictionary (Python `dict.pop` /
`dict.__setitem__`) is made explicit: every dispatcher step returns the
possibly-updated marker next to its decision.
-/

namespace SkipMarkers

/-! ### String primitives

Python's `str` operations, written over the character list so that every
definition reduces by computation. -/

/-- Python `str.startswith(pre)`. -/
def startsWithPy (s pre : String) : Bool :=
  pre.data.isPrefixOf s.data

/-- The characters Python `str.strip()` removes. -/
def isSpacePy (c : Char) : Bool :=
  c = ' ' || c = '\t' || c = '\n' || c = '\r' || c = '\x0b' || c = '\x0c'

/-- Python `str.strip()`: remove leading and trailing whitespace. -/
def stripPy (s : String) : String :=
  String.mk (((s.data.dropWhile isSpacePy).reverse.dropWhile isSpacePy).reverse)

/-- Whether a string is empty (Python falsiness of a `str`). -/
def emptyPy (s : String) : Bool :=
  s.data.isEmpty

/-- Python `str.split(sep)` for a one-character separator, on char lists. -/
def splitCharsPy (sep : Char) : List Char → List (List Char)
  | [] => [[]]
  | c :: rest =>
    let r := splitCharsPy sep rest
    if c = sep then [] :: r
    else
      match r with
      | h :: t => (c :: h) :: t
      | [] => [[c]]

/-- Python `str.split(sep)` for a one-character separator. -/
def splitPy (sep : Char) (s : String) : List String :=
  (splitCharsPy sep s.data).map String.mk

/-- Python `sep.join(xs)`. -/
def joinPy (sep : String) : List String → String
  | [] => ""
  | [x] => x
  | x :: rest => x ++ sep ++ joinPy sep rest

/-- A Python value as it occurs in marker arguments: a string or a boolean. -/
inductive PyVal where
  | str (s : String)
  | bool (b : Bool)
deriving DecidableEq, Repr

/-- Python truthiness for the values that occur in marker arguments:
`""` and `False` are falsy, everything else is truthy. -/
def pyTruthy : PyVal → Bool
  | .str s => !emptyPy s
  | .bool b => b

/-- Python truthiness of an `Optional` value: `None` is falsy. -/
def pyTruthyO : Option PyVal → Bool
  | none => false
  | some v => pyTruthy v

/-- Python `==` between the marker-argument values: strings compare to
strings, booleans to booleans, and a string never equals a boolean. -/
def pyEq : PyVal → PyVal → Bool
  | .str a, .str b => a = b
  | .bool a, .bool b => a = b
  | _, _ => false

/-- Python `str()` / f-string rendering of a marker-argument value. -/
def pyStr : PyVal → String
  | .str s => s
  | .bool b => if b then "True" else "False"

/-- f-string rendering of an `Optional` value (`None` renders as `"None"`). -/
def pyStrO : Option PyVal → String
  | none => "None"
  | some v => pyStr v

/-- Ambient host state observed by the probes and helpers: every OS-level
query the Python code performs is a field here. -/
structure Env where
  /-- `sys.platform` -/
  sys_platform : String
  /-- `platform.machine()` -/
  machine : String
  /-- `os.uname()[3]` (the kernel version field) -/
  uname3 : String
  /-- first element of `distro.linux_distribution()`, unstripped -/
  distro_osname : String
  /-- `multiprocessing.get_start_method(allow_none=False)` -/
  mp_start_method : String
  /-- `os.getuid()` -/
  uid : Nat
  /-- `win_functions.get_current_user()` -/
  win_current_user : String
  /-- `win_functions.is_admin(user)` -/
  win_is_admin : String → Bool
  /-- whether `shutil.which(name)` resolves `name` on the search path -/
  which : String → Bool
  /-- `os.environ` -/
  environ : String → Option String
  /-- successive results of `ports.get_unused_localhost_port()`; the `i`-th
  call of a single helper invocation returns `draw i` -/
  draw : Nat → Nat
  /-- whether binding an IPv4 TCP socket on the given port succeeds -/
  bind4 : Nat → Bool
  /-- whether binding an IPv6 TCP socket on the given port succeeds -/
  bind6 : Nat → Bool
  /-- whether a 0.25s TCP connect to `addr:80` succeeds -/
  connect : String → Bool
  /-- `pathlib.Path("/etc/system-fips").exists()` -/
  etc_system_fips : Bool
  /-- content of `/proc/sys/crypto/fips_enabled` when that file exists -/
  kernel_fips : Option String
  /-- `(returncode, stdout)` of `subprocess.run([sysctl, "crypto.fips_enabled"])` -/
  sysctl_run : Int × String
  /-- `cryptography...backend._fips_enabled` when the library is importable -/
  crypto_backend : Option Bool
  /-- message of the `ValueError` raised by `hashlib.md5()`, when it raises -/
  md5_error : Option String
  /-- `item.config.getoption("--run-destructive")` -/
  run_destructive : Bool
  /-- `item.config.getoption("--run-expensive")` -/
  run_expensive : Bool

/-! ### `pytestskipmarkers/utils/platform.py` -/

/-- `is_windows`: `sys.platform.startswith("win")`. -/
def is_windows (env : Env) : Bool :=
  startsWithPy env.sys_platform "win"

/-- `is_linux`: `sys.platform.startswith("linux")`. -/
def is_linux (env : Env) : Bool :=
  startsWithPy env.sys_platform "linux"

/-- `is_darwin`: `sys.platform.startswith("darwin")`. -/
def is_darwin (env : Env) : Bool :=
  startsWithPy env.sys_platform "darwin"

/-- `is_sunos`: `sys.platform.startswith("sunos")`. -/
def is_sunos (env : Env) : Bool :=
  startsWithPy env.sys_platform "sunos"

/-- `is_smartos`: on SunOS, `os.uname()[3].startswith("joyent_")`. -/
def is_smartos (env : Env) : Bool :=
  if is_sunos env then startsWithPy env.uname3 "joyent_" else false

/-- `is_freebsd`: `sys.platform.startswith("freebsd")`. -/
def is_freebsd (env : Env) : Bool :=
  startsWithPy env.sys_platform "freebsd"

/-- `is_netbsd`: `sys.platform.startswith("netbsd")`. -/
def is_netbsd (env : Env) : Bool :=
  startsWithPy env.sys_platform "netbsd"

/-- `is_openbsd`: `sys.platform.startswith("openbsd")`. -/
def is_openbsd (env : Env) : Bool :=
  startsWithPy env.sys_platform "openbsd"

/-- `is_aix`: `sys.platform.startswith("aix")`. -/
def is_aix (env : Env) : Bool :=
  startsWithPy env.sys_platform "aix"

/-- `is_aarch64` as written in `utils/platform.py` lines 108-112:
`platform.machine().startswith("aarch64")` and nothing else. -/
def is_aarch64 (env : Env) : Bool :=
  startsWithPy env.machine "aarch64"

/-- Python `str.strip(c)` for a single strip character: remove every
leading and trailing occurrence of `c`. -/
def stripChar (c : Char) (s : String) : String :=
  String.mk (((s.toList.dropWhile (· = c)).reverse.dropWhile (· = c)).reverse)

/-- `is_photonos`: the distro name with `"` then `'` stripped equals
`"VMware Photon OS"`. -/
def is_photonos (env : Env) : Bool :=
  stripChar '\'' (stripChar '"' env.distro_osname) = "VMware Photon OS"

/-- `is_spawning_platform`: the default multiprocessing start method is
`"spawn"`. -/
def is_spawning_platform (env : Env) : Bool :=
  env.mp_start_method = "spawn"

/-- `on_platforms` from `utils/platform.py`: true when any flag that is set
has its probe true, checked in the source's order. -/
def on_platforms (env : Env)
    (windows linux darwin sunos smartos freebsd netbsd openbsd aix
      aarch64 spawning photonos : Bool) : Bool :=
  if windows && is_windows env then true
  else if linux && is_linux env then true
  else if darwin && is_darwin env then true
  else if sunos && is_sunos env then true
  else if smartos && is_smartos env then true
  else if freebsd && is_freebsd env then true
  else if netbsd && is_netbsd env then true
  else if openbsd && is_openbsd env then true
  else if aix && is_aix env then true
  else if aarch64 && is_aarch64 env then true
  else if spawning && is_spawning_platform env then true
  else if photonos && is_photonos env then true
  else false

/-- Signal (a) of `is_fips_enabled`: `/etc/system-fips` exists. -/
def fipsMarkerFile (env : Env) : Bool :=
  env.etc_system_fips

/-- Signal (b): `/proc/sys/crypto/fips_enabled` exists and its stripped
content is `"1"`. -/
def fipsKernelFile (env : Env) : Bool :=
  match env.kernel_fips with
  | some content => stripPy content = "1"
  | none => false

/-- Signal (c): `sysctl` resolves on the search path, the invocation exits 0,
its stripped stdout is non-empty, contains `=`, and the last `=`-segment
strips to `"1"`. -/
def fipsSysctl (env : Env) : Bool :=
  if env.which "sysctl" then
    let rc := env.sysctl_run.1
    let out := env.sysctl_run.2
    if rc = 0 then
      let so := stripPy out
      !emptyPy so && so.data.contains '=' &&
        (stripPy ((splitPy '=' so).getLast?.getD "") = "1")
    else false
  else false

/-- Signal (d): the `cryptography` library imports and its OpenSSL backend
reports `_fips_enabled`. -/
def fipsCryptography (env : Env) : Bool :=
  match env.crypto_backend with
  | some flag => flag
  | none => false

/-- Signal (e): `hashlib.md5()` raises a `ValueError` whose message is
exactly `"[digital envelope routines] unsupported"`. -/
def fipsMd5Raises (env : Env) : Bool :=
  match env.md5_error with
  | some msg => msg = "[digital envelope routines] unsupported"
  | none => false

/-- `is_fips_enabled` from `utils/platform.py` lines 200-243, translated
check by check in the source's order. -/
def is_fips_enabled (env : Env) : Bool :=
  if env.etc_system_fips then true
  else
    let viaKernel : Bool :=
      match env.kernel_fips with
      | some content => stripPy content = "1"
      | none => false
    if viaKernel then true
    else
      let viaSysctl : Bool :=
        if env.which "sysctl" then
          let rc := env.sysctl_run.1
          let out := env.sysctl_run.2
          if rc = 0 then
            let so := stripPy out
            !emptyPy so && so.data.contains '=' &&
              (stripPy ((splitPy '=' so).getLast?.getD "") = "1")
          else false
        else false
      if viaSysctl then true
      else
        let viaCrypto : Bool :=
          match env.crypto_backend with
          | some flag => flag
          | none => false
        if viaCrypto then true
        else
          match env.md5_error with
          | some msg => msg = "[digital envelope routines] unsupported"
          | none => false

end SkipMarkers

namespace SkipMarkersDowngraded

open SkipMarkers (Env startsWithPy)

/-! ### `pytestskipmarkers/downgraded/utils/platform.py`

The downgraded module carries its own copies of the probes (behind
`lru_cache`, which is irrelevant to the pure value) and an `on_platforms`
without the `photonos` keyword. -/

/-- Downgraded `is_windows`. -/
def is_windows (env : Env) : Bool :=
  startsWithPy env.sys_platform "win"

/-- Downgraded `is_linux`. -/
def is_linux (env : Env) : Bool :=
  startsWithPy env.sys_platform "linux"

/-- Downgraded `is_darwin`. -/
def is_darwin (env : Env) : Bool :=
  startsWithPy env.sys_platform "darwin"

/-- Downgraded `is_sunos`. -/
def is_sunos (env : Env) : Bool :=
  startsWithPy env.sys_platform "sunos"

/-- Downgraded `is_smartos`. -/
def is_smartos (env : Env) : Bool :=
  if is_sunos env then startsWithPy env.uname3 "joyent_" else false

/-- Downgraded `is_freebsd`. -/
def is_freebsd (env : Env) : Bool :=
  startsWithPy env.sys_platform "freebsd"

/-- Downgraded `is_netbsd`. -/
def is_netbsd (env : Env) : Bool :=
  startsWithPy env.sys_platform "netbsd"

/-- Downgraded `is_openbsd`. -/
def is_openbsd (env : Env) : Bool :=
  startsWithPy env.sys_platform "openbsd"

/-- Downgraded `is_aix`. -/
def is_aix (env : Env) : Bool :=
  startsWithPy env.sys_platform "aix"

/-- Downgraded `is_aarch64`: also only `machine.startswith("aarch64")`. -/
def is_aarch64 (env : Env) : Bool :=
  startsWithPy env.machine "aarch64"

/-- Downgraded `is_spawning_platform`. -/
def is_spawning_platform (env : Env) : Bool :=
  env.mp_start_method = "spawn"

/-- `on_platforms` from `downgraded/utils/platform.py` lines 129-181: the
same chain as the main implementation but with no `photonos` keyword. -/
def on_platforms (env : Env)
    (windows linux darwin sunos smartos freebsd netbsd openbsd aix
      aarch64 spawning : Bool) : Bool :=
  if windows && is_windows env then true
  else if linux && is_linux env then true
  else if darwin && is_darwin env then true
  else if sunos && is_sunos env then true
  else if smartos && is_smartos env then true
  else if freebsd && is_freebsd env then true
  else if netbsd && is_netbsd env then true
  else if openbsd && is_openbsd env then true
  else if aix && is_aix env then true
  else if aarch64 && is_aarch64 env then true
  else if spawning && is_spawning_platform env then true
  else false

end SkipMarkersDowngraded

namespace SkipMarkers

/-! ### Markers and kwargs (`pytest.Mark` shape) -/

/-- A pytest marker as the dispatcher sees it: positional arguments and a
keyword-argument dictionary (keys unique, insertion ordered). -/
structure Marker where
  args : List PyVal
  kwargs : List (String × PyVal)
deriving DecidableEq, Repr

/-- `dict.pop(k, None)`: the value under `k` (if any) and the dictionary with
`k` removed. -/
def popKw (k : String) : List (String × PyVal) → Option PyVal × List (String × PyVal)
  | [] => (none, [])
  | (k', v) :: rest =>
    if k' = k then (some v, rest)
    else
      let r := popKw k rest
      (r.1, (k', v) :: r.2)

/-- `dict.get(k)`. -/
def lookupKw (k : String) (kw : List (String × PyVal)) : Option PyVal :=
  (kw.find? (fun p => p.1 = k)).map (fun p => p.2)

/-- `dict[k] = v`: replace in place, or append when the key is new. -/
def setKw (k : String) (v : PyVal) : List (String × PyVal) → List (String × PyVal)
  | [] => [(k, v)]
  | (k', v') :: rest =>
    if k' = k then (k, v) :: rest else (k', v') :: setKw k v rest

/-! ### Helper predicates (`pytestskipmarkers/utils/markers.py`) -/

/-- `skip_if_not_root` (`utils/markers.py` lines 35-54): on non-Windows, skip
unless the effective uid is 0; on Windows, skip unless the current account is
`SYSTEM` or belongs to an administrative group. -/
def skip_if_not_root (env : Env) : Option String :=
  if !is_windows env then
    if env.uid ≠ 0 then some "You must be logged in as root to run this test"
    else none
  else
    let current_user := env.win_current_user
    if current_user ≠ "SYSTEM" then
      if !env.win_is_admin current_user then
        some "You must be logged in as an Administrator to run this test"
      else none
    else none

/-- `skip_if_binaries_missing` (`utils/markers.py` lines 57-96): with
`check_all is False`, skip only when none of the names resolves; otherwise
skip on the first name that does not resolve. -/
def skip_if_binaries_missing (which : String → Bool) (binaries : List String)
    (check_all : PyVal) (reason : Option PyVal) : Option PyVal :=
  if check_all = .bool false then
    if binaries.any which then none
    else
      match reason with
      | some r => some r
      | none =>
        some (.str ("None of the following binaries was found: "
          ++ joinPy ", " binaries))
  else
    match binaries.find? (fun binary => !which binary) with
    | some binary =>
      match reason with
      | some r => some r
      | none => some (.str ("The '" ++ binary ++ "' binary was not found"))
    | none => none

/-- `skip_if_no_local_network` (`utils/markers.py` lines 99-126): one port is
obtained from `ports.get_unused_localhost_port()` (the draw at index 0) and
an IPv4 bind on it is attempted; on `OSError`, an IPv6 bind on the same port;
both failing yields the fixed reason. -/
def skip_if_no_local_network (draw : Nat → Nat) (bind4 bind6 : Nat → Bool) :
    Option String :=
  let check_port := draw 0
  let has_local_network :=
    if bind4 check_port then true
    else if bind6 check_port then true
    else false
  if has_local_network = false then some "No local network was detected"
  else none

/-- Modelled from the spec: the spec's variant of the local-network check,
in which every bind attempt uses "a distinct unused-port probe" — the IPv4
attempt uses the first draw and the IPv6 attempt a fresh second draw. -/
def skip_if_no_local_network_spec (draw : Nat → Nat) (bind4 bind6 : Nat → Bool) :
    Option String :=
  let has_local_network :=
    if bind4 (draw 0) then true
    else if bind6 (draw 1) then true
    else false
  if has_local_network = false then some "No local network was detected"
  else none

/-- The fixed list of remote addresses probed by `skip_if_no_remote_network`. -/
def remoteAddrs : List String :=
  ["172.217.17.14", "172.217.16.238", "173.194.41.198", "173.194.41.199",
   "173.194.41.200", "173.194.41.201", "173.194.41.206", "173.194.41.192",
   "173.194.41.193", "173.194.41.194", "173.194.41.195", "173.194.41.196",
   "173.194.41.197", "216.58.201.174"]

/-- `skip_if_no_remote_network` (`utils/markers.py` lines 129-173): the
`NO_INTERNET` override short-circuits; otherwise succeed on the first
reachable fixed address, and exhaustion yields the no-internet reason. -/
def skip_if_no_remote_network (env : Env) : Option String :=
  let no_internet :=
    match env.environ "NO_INTERNET" with
    | some v => !emptyPy v
    | none => false
  if no_internet then some "Environment variable NO_INTERNET is set"
  else
    let has_remote_network := remoteAddrs.any env.connect
    if has_remote_network = false then
      some "No internet network connection was detected"
    else none

/-- When `r` is Python-truthy keep it, otherwise replace it with the default
message (`if not reason: reason = ...`). -/
def reasonOr (r : Option PyVal) (dflt : String) : PyVal :=
  match r with
  | some v => if pyTruthy v then v else .str dflt
  | none => .str dflt

/-- `skip_on_env` (`utils/markers.py` lines 176-226), translated including
the Python truthiness tests (`if eq and ne`, `if eq:`, `if not reason`), the
`present is True` / `present is False` identity tests, and the source's use
of `{eq}` inside the `ne` default message. `Except.error` models the raised
`pytest.UsageError`. -/
def skip_on_env (environ : String → Option String) (varname : String)
    (present : PyVal) (eq ne reason : Option PyVal) :
    Except String (Option PyVal) :=
  if pyTruthyO eq && pyTruthyO ne then
    .error "Cannot pass both `eq` and `ne`."
  else if present = .bool false && (pyTruthyO eq || pyTruthyO ne) then
    .error "Cannot pass `present=False` and either `eq` or `ne`."
  else if present = .bool false && (environ varname).isNone then
    .ok (some (reasonOr reason
      ("The variable '" ++ varname ++ "' is not present in the environ.")))
  else if present = .bool true && (environ varname).isSome then
    let varname_value := (environ varname).getD ""
    if pyTruthyO eq then
      if pyEq (.str varname_value) (eq.getD (.bool false)) then
        .ok (some (reasonOr reason
          ("'" ++ varname ++ "' present in environ and '" ++ varname ++ "=="
            ++ pyStrO eq ++ "'")))
      else .ok reason
    else if pyTruthyO ne then
      if !pyEq (.str varname_value) (ne.getD (.bool false)) then
        .ok (some (reasonOr reason
          ("'" ++ varname ++ "' present in environ and '" ++ varname ++ "!="
            ++ pyStrO eq ++ "'")))
      else .ok reason
    else .ok (some (reasonOr reason
      ("The variable '" ++ varname ++ "' is present in the environ.")))
  else .ok none

/-! ### The marker-evaluation dispatcher (`evaluate_markers`) -/

/-- A decisive outcome of `evaluate_markers`: a raised `pytest.skip.Exception`
(with its reason), a raised `pytest.UsageError`, or an uncaught `TypeError`
from a bad keyword. Falling off the end of the function (proceed) is
represented by the absence of a decision. -/
inductive Decision where
  | skip (reason : PyVal)
  | usageError (msg : String)
  | typeError (msg : String)
deriving DecidableEq, Repr

/-- A test item: the closest marker of each kind recognised by the
dispatcher, in the source's field-for-field shape. -/
structure Item where
  destructive_test : Option Marker := none
  expensive_test : Option Marker := none
  skip_if_not_root : Option Marker := none
  skip_if_binaries_missing : Option Marker := none
  requires_network : Option Marker := none
  skip_on_windows : Option Marker := none
  skip_unless_on_windows : Option Marker := none
  skip_on_linux : Option Marker := none
  skip_unless_on_linux : Option Marker := none
  skip_on_darwin : Option Marker := none
  skip_unless_on_darwin : Option Marker := none
  skip_on_sunos : Option Marker := none
  skip_unless_on_sunos : Option Marker := none
  skip_on_smartos : Option Marker := none
  skip_unless_on_smartos : Option Marker := none
  skip_on_freebsd : Option Marker := none
  skip_unless_on_freebsd : Option Marker := none
  skip_on_netbsd : Option Marker := none
  skip_unless_on_netbsd : Option Marker := none
  skip_on_openbsd : Option Marker := none
  skip_unless_on_openbsd : Option Marker := none
  skip_on_aix : Option Marker := none
  skip_unless_on_aix : Option Marker := none
  skip_on_aarch64 : Option Marker := none
  skip_unless_on_aarch64 : Option Marker := none
  skip_on_spawning_platform : Option Marker := none
  skip_unless_on_spawning_platform : Option Marker := none
  skip_on_photonos : Option Marker := none
  skip_unless_on_photonos : Option Marker := none
  skip_on_fips_enabled_platform : Option Marker := none
  skip_on_platforms : Option Marker := none
  skip_unless_on_platforms : Option Marker := none
  skip_on_env : Option Marker := none
deriving DecidableEq, Repr

/-- The `destructive_test` / `expensive_test` block shape: no arguments
allowed, skip when the corresponding CLI toggle is off. -/
def runGateBlock (markerName : String) (flag : Bool) (disabledMsg : String)
    (m : Option Marker) : Option Decision × Option Marker :=
  match m with
  | none => (none, none)
  | some mk =>
    if !mk.args.isEmpty || !mk.kwargs.isEmpty then
      (some (.usageError ("The '" ++ markerName
        ++ "' marker does not accept any arguments or keyword arguments")), some mk)
    else if flag = false then (some (.skip (.str disabledMsg)), some mk)
    else (none, some mk)

/-- The `skip_if_not_root` block: no arguments allowed, then the privilege
helper decides. -/
def skipIfNotRootBlock (env : Env) (m : Option Marker) :
    Option Decision × Option Marker :=
  match m with
  | none => (none, none)
  | some mk =>
    if !mk.args.isEmpty || !mk.kwargs.isEmpty then
      (some (.usageError ("The 'skip_if_not_root' marker does not accept any "
        ++ "arguments or keyword arguments")), some mk)
    else
      match skip_if_not_root env with
      | some s => if !emptyPy s then (some (.skip (.str s)), some mk)
                  else (none, some mk)
      | none => (none, some mk)

/-- The `skip_if_binaries_missing` block (`utils/markers.py` lines 261-286):
argument validation, the deprecated `message` keyword popped and re-inserted
as `reason` when truthy (a real in-place mutation of the marker's kwargs),
then the helper call with the remaining kwargs. -/
def skipIfBinariesMissingBlock (env : Env) (m : Option Marker) :
    Option Decision × Option Marker :=
  match m with
  | none => (none, none)
  | some mk =>
    let binaries := mk.args
    if binaries.isEmpty then
      (some (.usageError ("The 'skip_if_binaries_missing' marker needs at "
        ++ "least one binary name to be passed")), some mk)
    else if binaries.any (fun a => match a with | .str _ => false | _ => true) then
      (some (.usageError ("The 'skip_if_binaries_missing' marker only accepts "
        ++ "strings as arguments. If you are trying to pass multiple binaries, "
        ++ "each binary should be an separate argument.")), some mk)
    else
      let pm := popKw "message" mk.kwargs
      let kwargs2 :=
        match pm.1 with
        | some message =>
          if pyTruthy message then setKw "reason" message pm.2 else pm.2
        | none => pm.2
      let mk' : Marker := { mk with kwargs := kwargs2 }
      let pca := popKw "check_all" kwargs2
      let prs := popKw "reason" pca.2
      if !prs.2.isEmpty then
        (some (.typeError ("skip_if_binaries_missing() got an unexpected "
          ++ "keyword argument '"
          ++ (prs.2.headD ("", PyVal.bool false)).1 ++ "'")), some mk')
      else
        let check_all := pca.1.getD (.bool true)
        let strs := binaries.map (fun a => pyStr a)
        match skip_if_binaries_missing env.which strs check_all prs.1 with
        | some r => if pyTruthy r then (some (.skip r), some mk')
                    else (none, some mk')
        | none => (none, some mk')

/-- The `requires_network` block (`utils/markers.py` lines 288-300): the
local-network check always runs first and a failure skips; the remote check
runs only when `only_local_network` is the literal `False` (its default). -/
def requiresNetworkBlock (env : Env) (m : Option Marker) :
    Option Decision × Option Marker :=
  match m with
  | none => (none, none)
  | some mk =>
    let only_local_network :=
      (lookupKw "only_local_network" mk.kwargs).getD (.bool false)
    let localDecision : Option Decision :=
      match skip_if_no_local_network env.draw env.bind4 env.bind6 with
      | some r => if !emptyPy r then some (.skip (.str r)) else none
      | none => none
    match localDecision with
    | some d => (some d, some mk)
    | none =>
      if only_local_network = .bool false then
        match skip_if_no_remote_network env with
        | some r => if !emptyPy r then (some (.skip (.str r)), some mk)
                    else (none, some mk)
        | none => (none, some mk)
      else (none, some mk)

/-- The shared `skip_on_X` / `skip_unless_on_X` block shape: no positional
arguments, only the `reason` keyword (popped in place), and a skip when the
supplied probe fires. -/
def probeBlock (markerName : String) (probe : Env → Bool)
    (defaultReason : String) (env : Env) (m : Option Marker) :
    Option Decision × Option Marker :=
  match m with
  | none => (none, none)
  | some mk =>
    if !mk.args.isEmpty then
      (some (.usageError ("The " ++ markerName
        ++ " marker does not accept any arguments")), some mk)
    else
      let pr := popKw "reason" mk.kwargs
      let mk' : Marker := { mk with kwargs := pr.2 }
      if !pr.2.isEmpty then
        (some (.usageError ("The " ++ markerName
          ++ " marker only accepts 'reason' as a keyword argument.")), some mk')
      else
        let reason := pr.1.getD (.str defaultReason)
        if probe env then (some (.skip reason), some mk')
        else (none, some mk')

/-- The keyword parameters accepted by `on_platforms`, in signature order. -/
def onPlatformsKeys : List String :=
  ["windows", "linux", "darwin", "sunos", "smartos", "freebsd", "netbsd",
   "openbsd", "aix", "aarch64", "spawning", "photonos"]

/-- The `skip_on_platforms` / `skip_unless_on_platforms` block shape
(`utils/markers.py` lines 681-727): `reason` popped in place, at least one
platform keyword with a truthy value required, an unknown keyword surfacing
as a `UsageError` (the caught `TypeError`), then `on_platforms` decides
(negated for the `unless` variant). -/
def platformsBlock (markerName : String) (negate : Bool)
    (defaultReason : String) (env : Env) (m : Option Marker) :
    Option Decision × Option Marker :=
  match m with
  | none => (none, none)
  | some mk =>
    if !mk.args.isEmpty then
      (some (.usageError ("The " ++ markerName
        ++ " marker does not accept any arguments")), some mk)
    else
      let pr := popKw "reason" mk.kwargs
      let kw1 := pr.2
      let mk' : Marker := { mk with kwargs := kw1 }
      if kw1.isEmpty then
        (some (.usageError ("Pass at least one platform to " ++ markerName
          ++ " as a keyword argument")), some mk')
      else if !(kw1.any (fun p => pyTruthy p.2)) then
        (some (.usageError ("Pass at least one platform with a True value to "
          ++ markerName ++ " as a keyword argument")), some mk')
      else
        let reason := pr.1.getD (.str defaultReason)
        match kw1.find? (fun p => !onPlatformsKeys.contains p.1) with
        | some bad =>
          (some (.usageError ("Passed an invalid platform to " ++ markerName
            ++ ": on_platforms() got an unexpected keyword argument '"
            ++ bad.1 ++ "'")), some mk')
        | none =>
          let flag := fun k => pyTruthyO (lookupKw k kw1)
          let matched := on_platforms env (flag "windows") (flag "linux")
            (flag "darwin") (flag "sunos") (flag "smartos") (flag "freebsd")
            (flag "netbsd") (flag "openbsd") (flag "aix") (flag "aarch64")
            (flag "spawning") (flag "photonos")
          let fires := if negate then !matched else matched
          if fires then (some (.skip reason), some mk')
          else (none, some mk')

/-- The `skip_on_env` block (`utils/markers.py` lines 729-757): positional
and keyword validation on a copy of the kwargs (this block does not mutate
the marker), then the `skip_on_env` helper decides; a helper `UsageError`
propagates. -/
def skipOnEnvBlock (env : Env) (m : Option Marker) :
    Option Decision × Option Marker :=
  match m with
  | none => (none, none)
  | some mk =>
    match mk.args with
    | [] =>
      (some (.usageError ("The 'skip_on_env' marker needs at least one "
        ++ "argument to be passed, the environment variable name.")), some mk)
    | envvar :: rest =>
      if !rest.isEmpty then
        (some (.usageError ("The 'skip_on_env' only accepts one argument, "
          ++ "the environment variable name.")), some mk)
      else
        match envvar with
        | .str varname =>
          let p1 := popKw "present" mk.kwargs
          let present := p1.1.getD (.bool true)
          let p2 := popKw "eq" p1.2
          let p3 := popKw "ne" p2.2
          let p4 := popKw "reason" p3.2
          if !p4.2.isEmpty then
            (some (.usageError ("The 'skip_on_env' marker only accepts "
              ++ "'present', 'eq', 'ne' and 'reason' as keyword arguments.")),
              some mk)
          else
            match skip_on_env env.environ varname present p2.1 p3.1 p4.1 with
            | .error msg => (some (.usageError msg), some mk)
            | .ok r =>
              if pyTruthyO r then
                (some (.skip (r.getD (.bool false))), some mk)
              else (none, some mk)
        | _ =>
          (some (.usageError "The environment variable argument must be a string."),
            some mk)

/-- One sequential block of `evaluate_markers`: it may raise (a decision) and
it returns the item with its own marker field possibly mutated. -/
abbrev Step := Env → Item → Option Decision × Item

/-- `destructive_test` block wired to its item field. -/
def destructiveTestStep : Step := fun env it =>
  let r := runGateBlock "destructive_test" env.run_destructive
    "Destructive tests are disabled" it.destructive_test
  (r.1, { it with destructive_test := r.2 })

/-- `expensive_test` block wired to its item field. -/
def expensiveTestStep : Step := fun env it =>
  let r := runGateBlock "expensive_test" env.run_expensive
    "Expensive tests are disabled" it.expensive_test
  (r.1, { it with expensive_test := r.2 })

/-- `skip_if_not_root` block wired to its item field. -/
def skipIfNotRootStep : Step := fun env it =>
  let r := skipIfNotRootBlock env it.skip_if_not_root
  (r.1, { it with skip_if_not_root := r.2 })

/-- `skip_if_binaries_missing` block wired to its item field. -/
def skipIfBinariesMissingStep : Step := fun env it =>
  let r := skipIfBinariesMissingBlock env it.skip_if_binaries_missing
  (r.1, { it with skip_if_binaries_missing := r.2 })

/-- `requires_network` block wired to its item field. -/
def requiresNetworkStep : Step := fun env it =>
  let r := requiresNetworkBlock env it.requires_network
  (r.1, { it with requires_network := r.2 })

/-- `skip_on_windows` block wired to its item field. -/
def skipOnWindowsStep : Step := fun env it =>
  let r := probeBlock "skip_on_windows" (fun e => is_windows e)
    "Skipped on Windows" env it.skip_on_windows
  (r.1, { it with skip_on_windows := r.2 })

/-- `skip_unless_on_windows` block wired to its item field. -/
def skipUnlessOnWindowsStep : Step := fun env it =>
  let r := probeBlock "skip_unless_on_windows" (fun e => !is_windows e)
    "Platform is not Windows, skipped" env it.skip_unless_on_windows
  (r.1, { it with skip_unless_on_windows := r.2 })

/-- `skip_on_linux` block wired to its item field. -/
def skipOnLinuxStep : Step := fun env it =>
  let r := probeBlock "skip_on_linux" (fun e => is_linux e)
    "Skipped on Linux" env it.skip_on_linux
  (r.1, { it with skip_on_linux := r.2 })

/-- `skip_unless_on_linux` block wired to its item field. -/
def skipUnlessOnLinuxStep : Step := fun env it =>
  let r := probeBlock "skip_unless_on_linux" (fun e => !is_linux e)
    "Platform is not Linux, skipped" env it.skip_unless_on_linux
  (r.1, { it with skip_unless_on_linux := r.2 })

/-- `skip_on_darwin` block wired to its item field. -/
def skipOnDarwinStep : Step := fun env it =>
  let r := probeBlock "skip_on_darwin" (fun e => is_darwin e)
    "Skipped on Darwin" env it.skip_on_darwin
  (r.1, { it with skip_on_darwin := r.2 })

/-- `skip_unless_on_darwin` block wired to its item field. -/
def skipUnlessOnDarwinStep : Step := fun env it =>
  let r := probeBlock "skip_unless_on_darwin" (fun e => !is_darwin e)
    "Platform is not Darwin, skipped" env it.skip_unless_on_darwin
  (r.1, { it with skip_unless_on_darwin := r.2 })

/-- `skip_on_sunos` block wired to its item field. -/
def skipOnSunosStep : Step := fun env it =>
  let r := probeBlock "skip_on_sunos" (fun e => is_sunos e)
    "Skipped on SunOS" env it.skip_on_sunos
  (r.1, { it with skip_on_sunos := r.2 })

/-- `skip_unless_on_sunos` block wired to its item field. -/
def skipUnlessOnSunosStep : Step := fun env it =>
  let r := probeBlock "skip_unless_on_sunos" (fun e => !is_sunos e)
    "Platform is not SunOS, skipped" env it.skip_unless_on_sunos
  (r.1, { it with skip_unless_on_sunos := r.2 })

/-- `skip_on_smartos` block wired to its item field. -/
def skipOnSmartosStep : Step := fun env it =>
  let r := probeBlock "skip_on_smartos" (fun e => is_smartos e)
    "Skipped on SmartOS" env it.skip_on_smartos
  (r.1, { it with skip_on_smartos := r.2 })

/-- `skip_unless_on_smartos` block wired to its item field. -/
def skipUnlessOnSmartosStep : Step := fun env it =>
  let r := probeBlock "skip_unless_on_smartos" (fun e => !is_smartos e)
    "Platform is not SmartOS, skipped" env it.skip_unless_on_smartos
  (r.1, { it with skip_unless_on_smartos := r.2 })

/-- `skip_on_freebsd` block wired to its item field. -/
def skipOnFreebsdStep : Step := fun env it =>
  let r := probeBlock "skip_on_freebsd" (fun e => is_freebsd e)
    "Skipped on FreeBSD" env it.skip_on_freebsd
  (r.1, { it with skip_on_freebsd := r.2 })

/-- `skip_unless_on_freebsd` block wired to its item field. -/
def skipUnlessOnFreebsdStep : Step := fun env it =>
  let r := probeBlock "skip_unless_on_freebsd" (fun e => !is_freebsd e)
    "Platform is not FreeBSD, skipped" env it.skip_unless_on_freebsd
  (r.1, { it with skip_unless_on_freebsd := r.2 })

/-- `skip_on_netbsd` block wired to its item field. -/
def skipOnNetbsdStep : Step := fun env it =>
  let r := probeBlock "skip_on_netbsd" (fun e => is_netbsd e)
    "Skipped on NetBSD" env it.skip_on_netbsd
  (r.1, { it with skip_on_netbsd := r.2 })

/-- `skip_unless_on_netbsd` block wired to its item field. -/
def skipUnlessOnNetbsdStep : Step := fun env it =>
  let r := probeBlock "skip_unless_on_netbsd" (fun e => !is_netbsd e)
    "Platform is not NetBSD, skipped" env it.skip_unless_on_netbsd
  (r.1, { it with skip_unless_on_netbsd := r.2 })

/-- `skip_on_openbsd` block wired to its item field. -/
def skipOnOpenbsdStep : Step := fun env it =>
  let r := probeBlock "skip_on_openbsd" (fun e => is_openbsd e)
    "Skipped on OpenBSD" env it.skip_on_openbsd
  (r.1, { it with skip_on_openbsd := r.2 })

/-- `skip_unless_on_openbsd` block wired to its item field. -/
def skipUnlessOnOpenbsdStep : Step := fun env it =>
  let r := probeBlock "skip_unless_on_openbsd" (fun e => !is_openbsd e)
    "Platform is not OpenBSD, skipped" env it.skip_unless_on_openbsd
  (r.1, { it with skip_unless_on_openbsd := r.2 })

/-- `skip_on_aix` block wired to its item field. -/
def skipOnAixStep : Step := fun env it =>
  let r := probeBlock "skip_on_aix" (fun e => is_aix e)
    "Skipped on AIX" env it.skip_on_aix
  (r.1, { it with skip_on_aix := r.2 })

/-- `skip_unless_on_aix` block wired to its item field. -/
def skipUnlessOnAixStep : Step := fun env it =>
  let r := probeBlock "skip_unless_on_aix" (fun e => !is_aix e)
    "Platform is not AIX, skipped" env it.skip_unless_on_aix
  (r.1, { it with skip_unless_on_aix := r.2 })

/-- `skip_on_aarch64` block wired to its item field. -/
def skipOnAarch64Step : Step := fun env it =>
  let r := probeBlock "skip_on_aarch64" (fun e => is_aarch64 e)
    "Skipped on AArch64" env it.skip_on_aarch64
  (r.1, { it with skip_on_aarch64 := r.2 })

/-- `skip_unless_on_aarch64` block wired to its item field. -/
def skipUnlessOnAarch64Step : Step := fun env it =>
  let r := probeBlock "skip_unless_on_aarch64" (fun e => !is_aarch64 e)
    "Platform is not AArch64, skipped" env it.skip_unless_on_aarch64
  (r.1, { it with skip_unless_on_aarch64 := r.2 })

/-- `skip_on_spawning_platform` block wired to its item field. -/
def skipOnSpawningStep : Step := fun env it =>
  let r := probeBlock "skip_on_spawning_platform" (fun e => is_spawning_platform e)
    "Skipped on spawning platforms" env it.skip_on_spawning_platform
  (r.1, { it with skip_on_spawning_platform := r.2 })

/-- `skip_unless_on_spawning_platform` block wired to its item field. -/
def skipUnlessOnSpawningStep : Step := fun env it =>
  let r := probeBlock "skip_unless_on_spawning_platform"
    (fun e => !is_spawning_platform e)
    "Platform does not default multiprocessing to spawn, skipped" env
    it.skip_unless_on_spawning_platform
  (r.1, { it with skip_unless_on_spawning_platform := r.2 })

/-- `skip_on_photonos` block wired to its item field. -/
def skipOnPhotonosStep : Step := fun env it =>
  let r := probeBlock "skip_on_photonos" (fun e => is_photonos e)
    "Skipped on PhotonOS" env it.skip_on_photonos
  (r.1, { it with skip_on_photonos := r.2 })

/-- `skip_unless_on_photonos` block wired to its item field. -/
def skipUnlessOnPhotonosStep : Step := fun env it =>
  let r := probeBlock "skip_unless_on_photonos" (fun e => !is_photonos e)
    "Platform is not PhotonOS, skipped" env it.skip_unless_on_photonos
  (r.1, { it with skip_unless_on_photonos := r.2 })

/-- `skip_on_fips_enabled_platform` block wired to its item field. -/
def skipOnFipsStep : Step := fun env it =>
  let r := probeBlock "skip_on_fips_enabled_platform" (fun e => is_fips_enabled e)
    "Skipped on FIPS enabled platform" env it.skip_on_fips_enabled_platform
  (r.1, { it with skip_on_fips_enabled_platform := r.2 })

/-- `skip_on_platforms` block wired to its item field. -/
def skipOnPlatformsStep : Step := fun env it =>
  let r := platformsBlock "skip_on_platforms" false
    "Skipped on platform match" env it.skip_on_platforms
  (r.1, { it with skip_on_platforms := r.2 })

/-- `skip_unless_on_platforms` block wired to its item field. -/
def skipUnlessOnPlatformsStep : Step := fun env it =>
  let r := platformsBlock "skip_unless_on_platforms" true
    "Platform(s) do not match, skipped" env it.skip_unless_on_platforms
  (r.1, { it with skip_unless_on_platforms := r.2 })

/-- `skip_on_env` block wired to its item field. -/
def skipOnEnvStep : Step := fun env it =>
  let r := skipOnEnvBlock env it.skip_on_env
  (r.1, { it with skip_on_env := r.2 })

/-- Sequencing of two dispatcher blocks: a raised decision stops evaluation,
otherwise the next block runs on the (possibly mutated) item. -/
def andThen (r : Option Decision × Item) (k : Item → Option Decision × Item) :
    Option Decision × Item :=
  match r.1 with
  | some d => (some d, r.2)
  | none => k r.2

/-- `evaluate_markers` (`utils/markers.py` lines 229-757): every block in the
source's own order. The returned item carries the kwargs mutations the
evaluation performed. -/
def evaluate_markers (env : Env) (it : Item) : Option Decision × Item :=
  andThen (destructiveTestStep env it) fun it =>
  andThen (expensiveTestStep env it) fun it =>
  andThen (skipIfNotRootStep env it) fun it =>
  andThen (skipIfBinariesMissingStep env it) fun it =>
  andThen (requiresNetworkStep env it) fun it =>
  andThen (skipOnWindowsStep env it) fun it =>
  andThen (skipUnlessOnWindowsStep env it) fun it =>
  andThen (skipOnLinuxStep env it) fun it =>
  andThen (skipUnlessOnLinuxStep env it) fun it =>
  andThen (skipOnDarwinStep env it) fun it =>
  andThen (skipUnlessOnDarwinStep env it) fun it =>
  andThen (skipOnSunosStep env it) fun it =>
  andThen (skipUnlessOnSunosStep env it) fun it =>
  andThen (skipOnSmartosStep env it) fun it =>
  andThen (skipUnlessOnSmartosStep env it) fun it =>
  andThen (skipOnFreebsdStep env it) fun it =>
  andThen (skipUnlessOnFreebsdStep env it) fun it =>
  andThen (skipOnNetbsdStep env it) fun it =>
  andThen (skipUnlessOnNetbsdStep env it) fun it =>
  andThen (skipOnOpenbsdStep env it) fun it =>
  andThen (skipUnlessOnOpenbsdStep env it) fun it =>
  andThen (skipOnAixStep env it) fun it =>
  andThen (skipUnlessOnAixStep env it) fun it =>
  andThen (skipOnAarch64Step env it) fun it =>
  andThen (skipUnlessOnAarch64Step env it) fun it =>
  andThen (skipOnSpawningStep env it) fun it =>
  andThen (skipUnlessOnSpawningStep env it) fun it =>
  andThen (skipOnPhotonosStep env it) fun it =>
  andThen (skipUnlessOnPhotonosStep env it) fun it =>
  andThen (skipOnFipsStep env it) fun it =>
  andThen (skipOnPlatformsStep env it) fun it =>
  andThen (skipUnlessOnPlatformsStep env it) fun it =>
  skipOnEnvStep env it

/-- A data-driven evaluator: run the given blocks in order, stopping at the
first decision. -/
def runChecks : List Step → Env → Item → Option Decision × Item
  | [], _, it => (none, it)
  | s :: rest, env, it => andThen (s env it) (fun it' => runChecks rest env it')

/-- The dispatcher's blocks in the exact order the source runs them:
run-gating flags, privilege, binaries, network, the per-platform-family
pairs, then FIPS, then the compound platform selectors, then `skip_on_env`
last. -/
def sourceOrder : List Step :=
  [destructiveTestStep, expensiveTestStep, skipIfNotRootStep,
   skipIfBinariesMissingStep, requiresNetworkStep,
   skipOnWindowsStep, skipUnlessOnWindowsStep,
   skipOnLinuxStep, skipUnlessOnLinuxStep,
   skipOnDarwinStep, skipUnlessOnDarwinStep,
   skipOnSunosStep, skipUnlessOnSunosStep,
   skipOnSmartosStep, skipUnlessOnSmartosStep,
   skipOnFreebsdStep, skipUnlessOnFreebsdStep,
   skipOnNetbsdStep, skipUnlessOnNetbsdStep,
   skipOnOpenbsdStep, skipUnlessOnOpenbsdStep,
   skipOnAixStep, skipUnlessOnAixStep,
   skipOnAarch64Step, skipUnlessOnAarch64Step,
   skipOnSpawningStep, skipUnlessOnSpawningStep,
   skipOnPhotonosStep, skipUnlessOnPhotonosStep,
   skipOnFipsStep,
   skipOnPlatformsStep, skipUnlessOnPlatformsStep,
   skipOnEnvStep]

/-- The order the claim asserts: the per-platform-family pairs, then the
compound platform selectors, then `skip_on_env`, and FIPS last. -/
def claimedOrder : List Step :=
  [destructiveTestStep, expensiveTestStep, skipIfNotRootStep,
   skipIfBinariesMissingStep, requiresNetworkStep,
   skipOnWindowsStep, skipUnlessOnWindowsStep,
   skipOnLinuxStep, skipUnlessOnLinuxStep,
   skipOnDarwinStep, skipUnlessOnDarwinStep,
   skipOnSunosStep, skipUnlessOnSunosStep,
   skipOnSmartosStep, skipUnlessOnSmartosStep,
   skipOnFreebsdStep, skipUnlessOnFreebsdStep,
   skipOnNetbsdStep, skipUnlessOnNetbsdStep,
   skipOnOpenbsdStep, skipUnlessOnOpenbsdStep,
   skipOnAixStep, skipUnlessOnAixStep,
   skipOnAarch64Step, skipUnlessOnAarch64Step,
   skipOnSpawningStep, skipUnlessOnSpawningStep,
   skipOnPhotonosStep, skipUnlessOnPhotonosStep,
   skipOnPlatformsStep, skipUnlessOnPlatformsStep,
   skipOnEnvStep,
   skipOnFipsStep]

/-! ### Concrete fixtures used by the witnesses and counterexamples -/

/-- A quiet baseline host: Linux on x86_64, uid 0, no binaries on the path,
empty environ, IPv4 binds fine, the internet reachable, no FIPS signal, both
run-gating toggles on. -/
def baseEnv : Env :=
  { sys_platform := "linux", machine := "x86_64", uname3 := "",
    distro_osname := "Ubuntu", mp_start_method := "fork", uid := 0,
    win_current_user := "user", win_is_admin := fun _ => false,
    which := fun _ => false, environ := fun _ => none,
    draw := fun _ => 0, bind4 := fun _ => true, bind6 := fun _ => false,
    connect := fun _ => true, etc_system_fips := false, kernel_fips := none,
    sysctl_run := (1, ""), crypto_backend := none, md5_error := none,
    run_destructive := true, run_expensive := true }

/-- An Apple Silicon host: Darwin reporting machine `"arm64"`. -/
def darwinArm64Env : Env :=
  { baseEnv with sys_platform := "darwin", machine := "arm64" }

/-- A Windows host (running as the SYSTEM account). -/
def winEnv : Env :=
  { baseEnv with sys_platform := "win32", win_current_user := "SYSTEM" }

/-- An item carrying only `skip_on_windows(reason="custom")`. -/
def itemCustomReason : Item :=
  { skip_on_windows := some ⟨[], [("reason", .str "custom")]⟩ }

/-- A host on which FIPS is enabled (marker file present) and the
environment variable `FOO` is set. -/
def fipsFooEnv : Env :=
  { baseEnv with
    etc_system_fips := true,
    environ := fun k => if k = "FOO" then some "1" else none }

/-- An item carrying a bare `skip_on_fips_enabled_platform` marker and a
`skip_on_env("FOO")` marker. -/
def itemFipsAndEnv : Item :=
  { skip_on_fips_enabled_platform := some ⟨[], []⟩,
    skip_on_env := some ⟨[.str "FOO"], []⟩ }

/-- The item state after the source-order prefix through the FIPS block has
run on `itemFipsAndEnv` under `fipsFooEnv`. -/
def itemFipsAndEnvAfter : Item :=
  (runChecks (sourceOrder.take 30) fipsFooEnv itemFipsAndEnv).2

/-- An environ containing only `FOO=2`. -/
def fooTwoEnviron : String → Option String :=
  fun k => if k = "FOO" then some "2" else none

/-- The identity port supply: the `i`-th unused-port draw returns `i`. -/
def drawId : Nat → Nat := fun i => i

/-- An IPv6 bind oracle that succeeds exactly on port 0. -/
def bind6OnZero : Nat → Bool := fun p => p = 0

/-- A search path on which exactly `sh` resolves. -/
def whichSh : String → Bool := fun s => s = "sh"

/-- A FIPS-free host also used to exercise the robustness conjuncts of the
`is_fips_enabled` theorem. -/
def noFipsEnv : Env := baseEnv

/-- Marker kwargs emptiness: `True` for an absent marker or one whose kwargs
dictionary is empty. -/
def markerKwEmpty : Option Marker → Bool
  | none => true
  | some mk => mk.kwargs.isEmpty

/-- No marker on the item carries keyword arguments. -/
def noKwargs (it : Item) : Bool :=
  markerKwEmpty it.destructive_test && markerKwEmpty it.expensive_test &&
  markerKwEmpty it.skip_if_not_root && markerKwEmpty it.skip_if_binaries_missing &&
  markerKwEmpty it.requires_network &&
  markerKwEmpty it.skip_on_windows && markerKwEmpty it.skip_unless_on_windows &&
  markerKwEmpty it.skip_on_linux && markerKwEmpty it.skip_unless_on_linux &&
  markerKwEmpty it.skip_on_darwin && markerKwEmpty it.skip_unless_on_darwin &&
  markerKwEmpty it.skip_on_sunos && markerKwEmpty it.skip_unless_on_sunos &&
  markerKwEmpty it.skip_on_smartos && markerKwEmpty it.skip_unless_on_smartos &&
  markerKwEmpty it.skip_on_freebsd && markerKwEmpty it.skip_unless_on_freebsd &&
  markerKwEmpty it.skip_on_netbsd && markerKwEmpty it.skip_unless_on_netbsd &&
  markerKwEmpty it.skip_on_openbsd && markerKwEmpty it.skip_unless_on_openbsd &&
  markerKwEmpty it.skip_on_aix && markerKwEmpty it.skip_unless_on_aix &&
  markerKwEmpty it.skip_on_aarch64 && markerKwEmpty it.skip_unless_on_aarch64 &&
  markerKwEmpty it.skip_on_spawning_platform &&
  markerKwEmpty it.skip_unless_on_spawning_platform &&
  markerKwEmpty it.skip_on_photonos && markerKwEmpty it.skip_unless_on_photonos &&
  markerKwEmpty it.skip_on_fips_enabled_platform &&
  markerKwEmpty it.skip_on_platforms && markerKwEmpty it.skip_unless_on_platforms &&
  markerKwEmpty it.skip_on_env

/-- An item with one marker of every kind whose kwargs are all empty, used
as the idempotence witness. -/
def itemAllBare : Item :=
  { destructive_test := some ⟨[], []⟩,
    expensive_test := some ⟨[], []⟩,
    skip_if_not_root := some ⟨[], []⟩,
    skip_if_binaries_missing := some ⟨[.str "sh"], []⟩,
    requires_network := some ⟨[], []⟩,
    skip_on_windows := some ⟨[], []⟩,
    skip_on_env := some ⟨[.str "FOO"], []⟩ }

/-! ### Shared lemmas -/

/-- Sequencing with the trivial continuation is the identity. -/
theorem andThen_proceed (r : Option Decision × Item) :
    andThen r (fun it => (none, it)) = r := by
  rcases r with ⟨d, i⟩
  cases d <;> rfl

/-- `evaluate_markers` is the data-driven evaluation of `sourceOrder`. -/
theorem evaluate_markers_eq_sourceOrder (env : Env) (it : Item) :
    evaluate_markers env it = runChecks sourceOrder env it := by
  simp only [runChecks, sourceOrder, evaluate_markers, andThen_proceed]

/-- Splitting a check list: the suffix runs only when the prefix decided
nothing. -/
theorem runChecks_append (pre post : List Step) (env : Env) (it : Item) :
    runChecks (pre ++ post) env it
      = andThen (runChecks pre env it) (fun it' => runChecks post env it') := by
  induction pre generalizing it with
  | nil => rfl
  | cons s rest ih =>
    show runChecks (s :: (rest ++ post)) env it = _
    simp only [runChecks]
    rcases hs : s env it with ⟨d, it'⟩
    cases d with
    | none => simp only [andThen, hs]; exact ih it'
    | some d0 => simp only [andThen, hs]

/-- A prefix that decides a skip fixes the whole run: the suffix checks are
never entered. -/
theorem runChecks_stop (pre post : List Step) (env : Env) (it : Item)
    (d : Decision) (it' : Item) (h : runChecks pre env it = (some d, it')) :
    runChecks (pre ++ post) env it = (some d, it') := by
  rw [runChecks_append, h]
  rfl

/-- The run-gating blocks never mutate their marker. -/
theorem runGateBlock_snd (n : String) (f : Bool) (msg : String)
    (m : Option Marker) : (runGateBlock n f msg m).2 = m := by
  cases m with
  | none => rfl
  | some mk =>
    simp only [runGateBlock]
    repeat' split
    all_goals rfl

/-- The privilege block never mutates its marker. -/
theorem skipIfNotRootBlock_snd (env : Env) (m : Option Marker) :
    (skipIfNotRootBlock env m).2 = m := by
  cases m with
  | none => rfl
  | some mk =>
    simp only [skipIfNotRootBlock]
    repeat' split
    all_goals rfl

/-- The network block never mutates its marker. -/
theorem requiresNetworkBlock_snd (env : Env) (m : Option Marker) :
    (requiresNetworkBlock env m).2 = m := by
  cases m with
  | none => rfl
  | some mk =>
    simp only [requiresNetworkBlock]
    repeat' split
    all_goals rfl

/-- The `skip_on_env` block never mutates its marker (it pops a copy). -/
theorem skipOnEnvBlock_snd (env : Env) (m : Option Marker) :
    (skipOnEnvBlock env m).2 = m := by
  cases m with
  | none => rfl
  | some mk =>
    simp only [skipOnEnvBlock]
    repeat' split
    all_goals rfl

/-- Popping a key from an empty kwargs dictionary changes nothing. -/
theorem popKw_nil (k : String) : popKw k [] = (none, []) := rfl

/-- With empty kwargs, a probe-pair block returns the marker unchanged. -/
theorem probeBlock_snd (n : String) (p : Env → Bool) (d : String) (env : Env)
    (m : Option Marker) (h : markerKwEmpty m = true) :
    (probeBlock n p d env m).2 = m := by
  cases m with
  | none => rfl
  | some mk =>
    rcases mk with ⟨args, kwargs⟩
    cases kwargs with
    | cons p' rest => simp [markerKwEmpty] at h
    | nil =>
      simp only [probeBlock, popKw]
      repeat' split
      all_goals rfl

/-- With empty kwargs, the compound-platform block returns the marker
unchanged. -/
theorem platformsBlock_snd (n : String) (neg : Bool) (d : String) (env : Env)
    (m : Option Marker) (h : markerKwEmpty m = true) :
    (platformsBlock n neg d env m).2 = m := by
  cases m with
  | none => rfl
  | some mk =>
    rcases mk with ⟨args, kwargs⟩
    cases kwargs with
    | cons p' rest => simp [markerKwEmpty] at h
    | nil =>
      simp only [platformsBlock, popKw]
      repeat' split
      all_goals rfl

/-- With empty kwargs, the binaries block returns the marker unchanged. -/
theorem skipIfBinariesMissingBlock_snd (env : Env) (m : Option Marker)
    (h : markerKwEmpty m = true) :
    (skipIfBinariesMissingBlock env m).2 = m := by
  cases m with
  | none => rfl
  | some mk =>
    rcases mk with ⟨args, kwargs⟩
    cases kwargs with
    | cons p' rest => simp [markerKwEmpty] at h
    | nil =>
      simp only [skipIfBinariesMissingBlock, popKw]
      repeat' split
      all_goals rfl

/-- Under `noKwargs`, every dispatcher step leaves the item untouched. -/
theorem step_snd_fix (env : Env) (it : Item) (h : noKwargs it = true) :
    ∀ s ∈ sourceOrder, (s env it).2 = it := by
  simp only [noKwargs, Bool.and_eq_true] at h
  obtain ⟨⟨⟨⟨⟨⟨⟨⟨⟨⟨⟨⟨⟨⟨⟨⟨⟨⟨⟨⟨⟨⟨⟨⟨⟨⟨⟨⟨⟨⟨⟨⟨h1, h2⟩, h3⟩, h4⟩, h5⟩, h6⟩, h7⟩,
    h8⟩, h9⟩, h10⟩, h11⟩, h12⟩, h13⟩, h14⟩, h15⟩, h16⟩, h17⟩, h18⟩, h19⟩,
    h20⟩, h21⟩, h22⟩, h23⟩, h24⟩, h25⟩, h26⟩, h27⟩, h28⟩, h29⟩, h30⟩, h31⟩,
    h32⟩, h33⟩ := h
  intro s hs
  simp only [sourceOrder, List.mem_cons, List.not_mem_nil, or_false] at hs
  rcases hs with rfl | rfl | rfl | rfl | rfl | rfl | rfl | rfl | rfl | rfl |
    rfl | rfl | rfl | rfl | rfl | rfl | rfl | rfl | rfl | rfl | rfl | rfl |
    rfl | rfl | rfl | rfl | rfl | rfl | rfl | rfl | rfl | rfl | rfl
  · simp only [destructiveTestStep, runGateBlock_snd]
  · simp only [expensiveTestStep, runGateBlock_snd]
  · simp only [skipIfNotRootStep, skipIfNotRootBlock_snd]
  · simp only [skipIfBinariesMissingStep, skipIfBinariesMissingBlock_snd _ _ h4]
  · simp only [requiresNetworkStep, requiresNetworkBlock_snd]
  · simp only [skipOnWindowsStep, probeBlock_snd _ _ _ _ _ h6]
  · simp only [skipUnlessOnWindowsStep, probeBlock_snd _ _ _ _ _ h7]
  · simp only [skipOnLinuxStep, probeBlock_snd _ _ _ _ _ h8]
  · simp only [skipUnlessOnLinuxStep, probeBlock_snd _ _ _ _ _ h9]
  · simp only [skipOnDarwinStep, probeBlock_snd _ _ _ _ _ h10]
  · simp only [skipUnlessOnDarwinStep, probeBlock_snd _ _ _ _ _ h11]
  · simp only [skipOnSunosStep, probeBlock_snd _ _ _ _ _ h12]
  · simp only [skipUnlessOnSunosStep, probeBlock_snd _ _ _ _ _ h13]
  · simp only [skipOnSmartosStep, probeBlock_snd _ _ _ _ _ h14]
  · simp only [skipUnlessOnSmartosStep, probeBlock_snd _ _ _ _ _ h15]
  · simp only [skipOnFreebsdStep, probeBlock_snd _ _ _ _ _ h16]
  · simp only [skipUnlessOnFreebsdStep, probeBlock_snd _ _ _ _ _ h17]
  · simp only [skipOnNetbsdStep, probeBlock_snd _ _ _ _ _ h18]
  · simp only [skipUnlessOnNetbsdStep, probeBlock_snd _ _ _ _ _ h19]
  · simp only [skipOnOpenbsdStep, probeBlock_snd _ _ _ _ _ h20]
  · simp only [skipUnlessOnOpenbsdStep, probeBlock_snd _ _ _ _ _ h21]
  · simp only [skipOnAixStep, probeBlock_snd _ _ _ _ _ h22]
  · simp only [skipUnlessOnAixStep, probeBlock_snd _ _ _ _ _ h23]
  · simp only [skipOnAarch64Step, probeBlock_snd _ _ _ _ _ h24]
  · simp only [skipUnlessOnAarch64Step, probeBlock_snd _ _ _ _ _ h25]
  · simp only [skipOnSpawningStep, probeBlock_snd _ _ _ _ _ h26]
  · simp only [skipUnlessOnSpawningStep, probeBlock_snd _ _ _ _ _ h27]
  · simp only [skipOnPhotonosStep, probeBlock_snd _ _ _ _ _ h28]
  · simp only [skipUnlessOnPhotonosStep, probeBlock_snd _ _ _ _ _ h29]
  · simp only [skipOnFipsStep, probeBlock_snd _ _ _ _ _ h30]
  · simp only [skipOnPlatformsStep, platformsBlock_snd _ _ _ _ _ h31]
  · simp only [skipUnlessOnPlatformsStep, platformsBlock_snd _ _ _ _ _ h32]
  · simp only [skipOnEnvStep, skipOnEnvBlock_snd]

/-- When every step leaves the item fixed, the whole run leaves it fixed. -/
theorem runChecks_snd_fix (cs : List Step) (env : Env) (it : Item)
    (h : ∀ s ∈ cs, (s env it).2 = it) : (runChecks cs env it).2 = it := by
  induction cs with
  | nil => rfl
  | cons s rest ih =>
    have hs : (s env it).2 = it := h s (by simp)
    simp only [runChecks, andThen]
    rcases hsev : s env it with ⟨d, it'⟩
    have hit : it' = it := by rw [← hs, hsev]
    subst hit
    cases d with
    | some d0 => rfl
    | none => exact ih (fun s' hs' => h s' (by simp [hs']))

/-- Under `noKwargs`, a dispatcher run returns the item unchanged. -/
theorem evaluate_markers_snd_fix (env : Env) (it : Item)
    (h : noKwargs it = true) : (evaluate_markers env it).2 = it := by
  rw [evaluate_markers_eq_sourceOrder]
  exact runChecks_snd_fix _ _ _ (step_snd_fix env it h)

/-- A five-way `if`-chain of Booleans is their disjunction. -/
theorem if_chain_or5 (a b c d e : Bool) :
    (if a then true else if b then true else if c then true
      else if d then true else e) = (a || b || c || d || e) := by
  cases a <;> cases b <;> cases c <;> cases d <;> simp

/-- `find?` on a split list whose prefix all fails the test finds the
distinguished element. -/
theorem find?_append_first {α : Type} (p : α → Bool) (l1 : List α) (b : α)
    (l2 : List α) (h1 : ∀ x ∈ l1, p x = false) (hb : p b = true) :
    (l1 ++ b :: l2).find? p = some b := by
  induction l1 with
  | nil => simp [List.find?_cons, hb]
  | cons x xs ih =>
    have hx : p x = false := h1 x (by simp)
    simp only [List.cons_append, List.find?_cons, hx]
    exact ih (fun y hy => h1 y (by simp [hy]))

/-- The local-network helper returns nothing or the one fixed reason. -/
theorem skip_if_no_local_network_cases (draw : Nat → Nat)
    (bind4 bind6 : Nat → Bool) :
    skip_if_no_local_network draw bind4 bind6 = none ∨
      skip_if_no_local_network draw bind4 bind6
        = some "No local network was detected" := by
  unfold skip_if_no_local_network
  cases h4 : bind4 (draw 0) <;> cases h6 : bind6 (draw 0) <;> simp [h4, h6]

/-! ### Claims -/

/-- C1: the spec (and the repo's own unit test `test_is_aarch64_arm64`) say
`is_aarch64()` is true for machine `"arm64"` on a Darwin host, but the code
in `utils/platform.py` (and in the downgraded copy) only tests
`machine.startswith("aarch64")`, so it returns `False` there. This theorem
evaluates the embedded code at that failing input. -/
theorem c1_is_aarch64_arm64_on_darwin_is_false :
    is_darwin darwinArm64Env = true
    ∧ is_aarch64 darwinArm64Env = false
    ∧ SkipMarkersDowngraded.is_aarch64 darwinArm64Env = false :=
  ⟨rfl, rfl, rfl⟩

/-- C2 counterexample: evaluating `skip_on_windows(reason="custom")` on a
Windows host skips with `"custom"`, but the evaluation pops the `reason`
keyword out of the marker's kwargs, so an immediate second evaluation of the
same item against the unchanged environment skips with the default
`"Skipped on Windows"` — a different outcome. -/
theorem c2_counterexample_reason_consumed :
    (evaluate_markers winEnv itemCustomReason).1
        = some (.skip (.str "custom"))
    ∧ (evaluate_markers winEnv (evaluate_markers winEnv itemCustomReason).2).1
        = some (.skip (.str "Skipped on Windows"))
    ∧ (evaluate_markers winEnv (evaluate_markers winEnv itemCustomReason).2).1
        ≠ (evaluate_markers winEnv itemCustomReason).1 :=
  ⟨rfl, rfl, by decide⟩

/-- C2 (amended): evaluating the same annotation set twice in succession
against an unchanged environment yields the same outcome both times,
provided no marker on the item carries keyword arguments; a caller-supplied
`reason` (or deprecated `message`) keyword is consumed by the first
evaluation, so a repeat evaluation falls back to the default reason. -/
theorem c2_amended_idempotent_without_kwargs (env : Env) (it : Item)
    (h : noKwargs it = true) :
    (evaluate_markers env it).2 = it
    ∧ evaluate_markers env ((evaluate_markers env it).2)
        = evaluate_markers env it := by
  have hfix := evaluate_markers_snd_fix env it h
  exact ⟨hfix, by rw [hfix]⟩

/-- Witness for the amended C2 at a concrete item and environment. -/
theorem c2_amended_witness :
    noKwargs itemAllBare = true
    ∧ (evaluate_markers baseEnv itemAllBare).2 = itemAllBare
    ∧ evaluate_markers baseEnv ((evaluate_markers baseEnv itemAllBare).2)
        = evaluate_markers baseEnv itemAllBare := by
  have h := c2_amended_idempotent_without_kwargs baseEnv itemAllBare (by decide)
  exact ⟨by decide, h.1, h.2⟩

/-- C3 counterexample: on a host with a FIPS signal and `FOO` set, an item
carrying `skip_on_fips_enabled_platform` and `skip_on_env("FOO")` is skipped
by the FIPS block (the source evaluates FIPS before the compound platform
selectors and before `skip_on_env`), while the claimed order — FIPS last —
would skip with the environment-variable reason. -/
theorem c3_counterexample_fips_not_last :
    (evaluate_markers fipsFooEnv itemFipsAndEnv).1
        = some (.skip (.str "Skipped on FIPS enabled platform"))
    ∧ (runChecks claimedOrder fipsFooEnv itemFipsAndEnv).1
        = some (.skip (.str "The variable 'FOO' is present in the environ."))
    ∧ (evaluate_markers fipsFooEnv itemFipsAndEnv).1
        ≠ (runChecks claimedOrder fipsFooEnv itemFipsAndEnv).1 :=
  ⟨rfl, rfl, by decide⟩

/-- C3 (amended): the dispatcher evaluates the annotation kinds in the fixed
order run-gating flags, privilege, binaries, network, the per-platform-family
pairs, then FIPS, then the compound platform selectors, then the
environment-variable condition; and the first block that decides terminates
evaluation — whatever a prefix of that order decides is the final outcome,
the remaining blocks never running. -/
theorem c3_amended_source_order_first_decision_wins (env : Env) (it : Item) :
    evaluate_markers env it = runChecks sourceOrder env it
    ∧ ∀ pre post, sourceOrder = pre ++ post →
        ∀ d it', runChecks pre env it = (some d, it') →
          evaluate_markers env it = (some d, it') := by
  refine ⟨evaluate_markers_eq_sourceOrder env it, ?_⟩
  intro pre post hsplit d it' hpre
  rw [evaluate_markers_eq_sourceOrder, hsplit]
  exact runChecks_stop pre post env it d it' hpre

/-- Witness for the amended C3: the prefix of the source order through the
FIPS block already decides the skip, and that is the dispatcher's outcome. -/
theorem c3_amended_witness :
    evaluate_markers fipsFooEnv itemFipsAndEnv
        = runChecks sourceOrder fipsFooEnv itemFipsAndEnv
    ∧ sourceOrder = sourceOrder.take 30 ++ sourceOrder.drop 30
    ∧ runChecks (sourceOrder.take 30) fipsFooEnv itemFipsAndEnv
        = (some (.skip (.str "Skipped on FIPS enabled platform")),
           itemFipsAndEnvAfter)
    ∧ evaluate_markers fipsFooEnv itemFipsAndEnv
        = (some (.skip (.str "Skipped on FIPS enabled platform")),
           itemFipsAndEnvAfter) := by
  have h := c3_amended_source_order_first_decision_wins fipsFooEnv itemFipsAndEnv
  refine ⟨h.1, (List.take_append_drop 30 sourceOrder).symm, rfl, ?_⟩
  exact h.2 (sourceOrder.take 30) (sourceOrder.drop 30)
    (List.take_append_drop 30 sourceOrder).symm _ _ rfl

/-- C4: the spec and the helper's own docstring say `eq` skips exactly when
the present variable's value equals `eq`, but with a caller-supplied
`reason` the code's final `return reason` also returns that reason — a skip
— when the value differs from `eq` (`FOO=2` with `eq="1"` here); with no
caller reason the same call correctly returns no skip. -/
theorem c4_skip_on_env_eq_mismatch_returns_caller_reason :
    skip_on_env fooTwoEnviron "FOO" (.bool true) (some (.str "1")) none
        (some (.str "custom")) = .ok (some (.str "custom"))
    ∧ skip_on_env fooTwoEnviron "FOO" (.bool true) (some (.str "1")) none none
        = .ok none :=
  ⟨rfl, rfl⟩

/-- C5 counterexample: `eq` and `ne` supplied as the empty string — string
values both — are falsy in Python, so the mutual-exclusion checks do not
raise: the first call returns no-skip normally, and the second
(`present=False` with `eq=""`) even returns a skip reason. -/
theorem c5_counterexample_empty_strings_not_validated :
    skip_on_env (fun _ => none) "FOO" (.bool true) (some (.str ""))
        (some (.str "")) none = .ok none
    ∧ skip_on_env (fun _ => none) "FOO" (.bool false) (some (.str "")) none none
        = .ok (some (.str "The variable 'FOO' is not present in the environ.")) :=
  ⟨rfl, rfl⟩

/-- C5 (amended): for every pair of NON-EMPTY string values, supplying both
`eq` and `ne` raises the mutual-exclusion usage error, and supplying
`present=False` together with a non-empty `eq` or `ne` raises the second
usage error — in all cases before any environment lookup (the result does
not depend on the environ) and without returning a skip decision. -/
theorem c5_amended_nonempty_mutual_exclusion (environ : String → Option String)
    (varname : String) (present : PyVal) (e n : String)
    (reason : Option PyVal) :
    (emptyPy e = false → emptyPy n = false →
      skip_on_env environ varname present (some (.str e)) (some (.str n))
          reason = .error "Cannot pass both `eq` and `ne`.")
    ∧ (emptyPy e = false →
        skip_on_env environ varname (.bool false) (some (.str e)) none reason
          = .error "Cannot pass `present=False` and either `eq` or `ne`.")
    ∧ (emptyPy n = false →
        skip_on_env environ varname (.bool false) none (some (.str n)) reason
          = .error "Cannot pass `present=False` and either `eq` or `ne`.") := by
  refine ⟨?_, ?_, ?_⟩
  · intro he hn
    simp [skip_on_env, pyTruthyO, pyTruthy, he, hn]
  · intro he
    simp [skip_on_env, pyTruthyO, pyTruthy, he]
  · intro hn
    simp [skip_on_env, pyTruthyO, pyTruthy, hn]

/-- Witness for the amended C5 at concrete non-empty values. -/
theorem c5_amended_witness :
    emptyPy "1" = false ∧ emptyPy "2" = false
    ∧ skip_on_env (fun _ => none) "FOO" (.bool true) (some (.str "1"))
        (some (.str "2")) none = .error "Cannot pass both `eq` and `ne`."
    ∧ skip_on_env (fun _ => none) "FOO" (.bool false) (some (.str "1")) none
        none = .error "Cannot pass `present=False` and either `eq` or `ne`."
    ∧ skip_on_env (fun _ => none) "FOO" (.bool false) none (some (.str "2"))
        none = .error "Cannot pass `present=False` and either `eq` or `ne`." := by
  have h := c5_amended_nonempty_mutual_exclusion (fun _ => none) "FOO"
    (.bool true) "1" "2" none
  exact ⟨rfl, rfl, h.1 rfl rfl, h.2.1 rfl, h.2.2 rfl⟩

/-- C6 counterexample: the code draws ONE unused port and reuses it for the
IPv6 attempt; the spec's words demand a distinct probe per attempt. With the
port supply 0, 1, ..., IPv4 always failing and IPv6 binding only on port 0,
the code finds a local network while the per-attempt-probe variant does
not. -/
theorem c6_counterexample_single_port_probe :
    skip_if_no_local_network drawId (fun _ => false) bind6OnZero = none
    ∧ skip_if_no_local_network_spec drawId (fun _ => false) bind6OnZero
        = some "No local network was detected"
    ∧ skip_if_no_local_network drawId (fun _ => false) bind6OnZero
        ≠ skip_if_no_local_network_spec drawId (fun _ => false) bind6OnZero :=
  ⟨rfl, rfl, by decide⟩

/-- C6 (amended): the local-network check obtains ONE unused port and tries
an IPv4 bind on it, then an IPv6 bind on the same port on IPv4 failure; both
failing yields exactly the fixed reason string (bind failures are folded
into that negative result, never propagated); the result depends only on the
first port draw; and when the IPv4 bind succeeds the IPv6 oracle is never
consulted. -/
theorem c6_amended_local_network_check (draw : Nat → Nat)
    (bind4 bind6 : Nat → Bool) :
    (skip_if_no_local_network draw bind4 bind6 = none
      ↔ (bind4 (draw 0) = true ∨ bind6 (draw 0) = true))
    ∧ (skip_if_no_local_network draw bind4 bind6 ≠ none →
        skip_if_no_local_network draw bind4 bind6
          = some "No local network was detected")
    ∧ (∀ draw' : Nat → Nat, draw' 0 = draw 0 →
        skip_if_no_local_network draw' bind4 bind6
          = skip_if_no_local_network draw bind4 bind6)
    ∧ (∀ bind6' : Nat → Bool, bind4 (draw 0) = true →
        skip_if_no_local_network draw bind4 bind6'
          = skip_if_no_local_network draw bind4 bind6) := by
  refine ⟨?_, ?_, ?_, ?_⟩
  · unfold skip_if_no_local_network
    cases h4 : bind4 (draw 0) <;> cases h6 : bind6 (draw 0) <;> simp [h4, h6]
  · intro hne
    rcases skip_if_no_local_network_cases draw bind4 bind6 with h0 | hs
    · exact absurd h0 hne
    · exact hs
  · intro draw' hd
    unfold skip_if_no_local_network
    rw [hd]
  · intro bind6' h4
    unfold skip_if_no_local_network
    simp [h4]

/-- Witness for the amended C6 at concrete oracles. -/
theorem c6_amended_witness :
    skip_if_no_local_network drawId (fun _ => false) (fun _ => false)
        = some "No local network was detected"
    ∧ skip_if_no_local_network (fun _ => 0) (fun _ => false) bind6OnZero
        = skip_if_no_local_network drawId (fun _ => false) bind6OnZero
    ∧ skip_if_no_local_network drawId (fun _ => true) bind6OnZero
        = skip_if_no_local_network drawId (fun _ => true) (fun _ => false) := by
  have h1 := c6_amended_local_network_check drawId (fun _ => false)
    (fun _ => false)
  have h2 := c6_amended_local_network_check drawId (fun _ => false) bind6OnZero
  have h3 := c6_amended_local_network_check drawId (fun _ => true)
    (fun _ => false)
  exact ⟨h1.2.1 (by decide), h2.2.2.1 (fun _ => 0) rfl, h3.2.2.2 bind6OnZero rfl⟩

/-- C7: `is_fips_enabled` is true exactly when one of its five signals holds
— the marker file, the kernel interface file trimming to `"1"`, a successful
`sysctl` query whose last `=`-segment trims to `"1"`, the cryptography
backend flag, or the MD5 digital-envelope error — and a missing tool, a
nonzero exit, or an unimportable library make the corresponding signal
false rather than raising. -/
theorem c7_is_fips_enabled_signals (env : Env) :
    (is_fips_enabled env
      = (fipsMarkerFile env || fipsKernelFile env || fipsSysctl env
          || fipsCryptography env || fipsMd5Raises env))
    ∧ (env.which "sysctl" = false → fipsSysctl env = false)
    ∧ (env.sysctl_run.1 ≠ 0 → fipsSysctl env = false)
    ∧ (env.crypto_backend = none → fipsCryptography env = false) := by
  refine ⟨?_, ?_, ?_, ?_⟩
  · have key : is_fips_enabled env
        = (if fipsMarkerFile env then true else if fipsKernelFile env then true
           else if fipsSysctl env then true
           else if fipsCryptography env then true
           else fipsMd5Raises env) := rfl
    rw [key, if_chain_or5]
  · intro h
    simp [fipsSysctl, h]
  · intro h
    simp [fipsSysctl, h]
  · intro h
    simp [fipsCryptography, h]

/-- Witness for C7 on the quiet baseline host: no signal holds and each
robustness conjunct applies. -/
theorem c7_witness :
    (is_fips_enabled noFipsEnv
      = (fipsMarkerFile noFipsEnv || fipsKernelFile noFipsEnv
          || fipsSysctl noFipsEnv || fipsCryptography noFipsEnv
          || fipsMd5Raises noFipsEnv))
    ∧ fipsSysctl noFipsEnv = false
    ∧ fipsSysctl noFipsEnv = false
    ∧ fipsCryptography noFipsEnv = false := by
  have h := c7_is_fips_enabled_signals noFipsEnv
  exact ⟨h.1, h.2.1 rfl, h.2.2.1 (by decide), h.2.2.2 rfl⟩

/-- C8: with `check_all` left at its `True` default and no caller reason,
`skip_if_binaries_missing` names the first binary of the list that is
missing from the search path and returns no reason when all resolve; with
`check_all=False` it returns a reason exactly when none of the names
resolves. -/
theorem c8_skip_if_binaries_missing (which : String → Bool)
    (binaries : List String) (hne : binaries ≠ []) :
    (∀ l1 b l2, binaries = l1 ++ b :: l2 → (∀ x ∈ l1, which x = true) →
      which b = false →
      skip_if_binaries_missing which binaries (.bool true) none
        = some (.str ("The '" ++ b ++ "' binary was not found")))
    ∧ ((∀ b ∈ binaries, which b = true) →
        skip_if_binaries_missing which binaries (.bool true) none = none)
    ∧ (skip_if_binaries_missing which binaries (.bool false) none ≠ none
        ↔ ∀ b ∈ binaries, which b = false) := by
  refine ⟨?_, ?_, ?_⟩
  · intro l1 b l2 hsplit hall hb
    subst hsplit
    simp only [skip_if_binaries_missing]
    rw [if_neg (by decide)]
    rw [find?_append_first (fun x => !which x) l1 b l2
      (fun x hx => by simp [hall x hx]) (by simp [hb])]
  · intro hall
    simp only [skip_if_binaries_missing]
    rw [if_neg (by decide)]
    have hnone : binaries.find? (fun x => !which x) = none :=
      List.find?_eq_none.mpr (fun x hx => by simp [hall x hx])
    rw [hnone]
  · simp only [skip_if_binaries_missing]
    rw [if_pos trivial]
    cases hany : binaries.any which with
    | true =>
      simp only [hany, if_true]
      constructor
      · intro hcontra
        exact absurd rfl hcontra
      · intro hall
        obtain ⟨b, hb, hwb⟩ := List.any_eq_true.mp hany
        have := hall b hb
        rw [this] at hwb
        exact absurd hwb (by decide)
    | false =>
      simp only [Bool.false_eq_true, if_false]
      constructor
      · intro _ b hb
        cases hwb : which b with
        | false => rfl
        | true =>
          exact absurd (List.any_eq_true.mpr ⟨b, hb, hwb⟩) (by simp [hany])
      · intro _ h
        exact Option.noConfusion h

/-- Witness for C8 on a path resolving exactly `sh`. -/
theorem c8_witness :
    (["sh", "xyz"] : List String) ≠ []
    ∧ skip_if_binaries_missing whichSh ["sh", "xyz"] (.bool true) none
        = some (.str "The 'xyz' binary was not found")
    ∧ skip_if_binaries_missing whichSh ["sh", "xyz"] (.bool false) none
        = none := by
  have h := c8_skip_if_binaries_missing whichSh ["sh", "xyz"] (by decide)
  refine ⟨by decide, h.1 ["sh"] "xyz" [] rfl (by decide) (by decide), ?_⟩
  cases hres : skip_if_binaries_missing whichSh ["sh", "xyz"] (.bool false)
      none with
  | none => rfl
  | some v =>
    have := h.2.2.mp (by simp [hres]) "sh" (by simp)
    exact absurd this (by decide)

/-- C9: in the `requires_network` block the local-network check always comes
first — a local failure skips with the local reason whatever the
`only_local_network` keyword holds; with the local check passing, a
non-`False` `only_local_network` proceeds without consulting the remote
check, `only_local_network=False` (the default) hands the decision to the
remote check; and whenever the remote check is not required, the outcome is
independent of the remote connectivity oracle. -/
theorem c9_requires_network_local_first (env : Env) (mk : Marker) :
    (∀ r, skip_if_no_local_network env.draw env.bind4 env.bind6 = some r →
      emptyPy r = false →
      (requiresNetworkBlock env (some mk)).1 = some (.skip (.str r)))
    ∧ (skip_if_no_local_network env.draw env.bind4 env.bind6 = none →
        (lookupKw "only_local_network" mk.kwargs).getD (.bool false)
            ≠ .bool false →
        (requiresNetworkBlock env (some mk)).1 = none)
    ∧ (skip_if_no_local_network env.draw env.bind4 env.bind6 = none →
        (lookupKw "only_local_network" mk.kwargs).getD (.bool false)
            = .bool false →
        (requiresNetworkBlock env (some mk)).1
          = (match skip_if_no_remote_network env with
             | some r => if !emptyPy r then some (.skip (.str r)) else none
             | none => none))
    ∧ (∀ c' : String → Bool,
        ((lookupKw "only_local_network" mk.kwargs).getD (.bool false)
            ≠ .bool false
          ∨ skip_if_no_local_network env.draw env.bind4 env.bind6 ≠ none) →
        requiresNetworkBlock { env with connect := c' } (some mk)
          = requiresNetworkBlock env (some mk)) := by
  refine ⟨?_, ?_, ?_, ?_⟩
  · intro r hl he
    simp [requiresNetworkBlock, hl, he]
  · intro hl ho
    simp [requiresNetworkBlock, hl, ho]
  · intro hl ho
    cases hr : skip_if_no_remote_network env with
    | none => simp [requiresNetworkBlock, hl, ho, hr]
    | some r =>
      cases he : emptyPy r with
      | true => simp [requiresNetworkBlock, hl, ho, hr, he]
      | false => simp [requiresNetworkBlock, hl, ho, hr, he]
  · intro c' hcase
    rcases hcase with ho | hl
    · cases hloc : skip_if_no_local_network env.draw env.bind4 env.bind6 with
      | some r =>
        cases hr : emptyPy r with
        | true => simp [requiresNetworkBlock, hloc, hr, ho]
        | false => simp [requiresNetworkBlock, hloc, hr]
      | none => simp [requiresNetworkBlock, hloc, ho]
    · rcases skip_if_no_local_network_cases env.draw env.bind4 env.bind6
        with h0 | hs
      · exact absurd h0 hl
      · simp [requiresNetworkBlock, hs,
          show emptyPy "No local network was detected" = false from rfl]

/-- Witness for C9: a host whose IPv4 bind works (conjunct 3) and one with
no local network (conjuncts 1 and 4). -/
theorem c9_witness :
    ((requiresNetworkBlock baseEnv (some ⟨[], []⟩)).1
      = (match skip_if_no_remote_network baseEnv with
         | some r => if !emptyPy r then some (.skip (.str r)) else none
         | none => none))
    ∧ (requiresNetworkBlock
          { baseEnv with bind4 := fun _ => false, bind6 := fun _ => false }
          (some ⟨[], []⟩)).1
        = some (.skip (.str "No local network was detected"))
    ∧ requiresNetworkBlock
          { baseEnv with
            bind4 := fun _ => false, bind6 := fun _ => false,
            connect := fun _ => false }
          (some ⟨[], []⟩)
        = requiresNetworkBlock
            { baseEnv with bind4 := fun _ => false, bind6 := fun _ => false }
            (some ⟨[], []⟩) := by
  have h1 := c9_requires_network_local_first baseEnv ⟨[], []⟩
  have h2 := c9_requires_network_local_first
    { baseEnv with bind4 := fun _ => false, bind6 := fun _ => false } ⟨[], []⟩
  exact ⟨h1.2.2.1 rfl rfl, h2.1 "No local network was detected" rfl rfl,
    h2.2.2.2 (fun _ => false) (Or.inr (by decide))⟩

/-- C10: on the eleven platform-selector keys both implementations share
(every selector not mentioning `photonos`), the downgraded `on_platforms`
and the main `on_platforms` agree in every ambient host state. -/
theorem c10_downgraded_on_platforms_agrees (env : Env)
    (windows linux darwin sunos smartos freebsd netbsd openbsd aix
      aarch64 spawning : Bool) :
    SkipMarkersDowngraded.on_platforms env windows linux darwin sunos smartos
        freebsd netbsd openbsd aix aarch64 spawning
      = on_platforms env windows linux darwin sunos smartos freebsd netbsd
          openbsd aix aarch64 spawning false :=
  rfl

end SkipMarkers
